import Mathlib

/-!
Shallow embedding of the bootstrap and lifecycle core of `bot/bot.py`
(classes `Env`, `Storage`, `Config`, `Bot`), together with theorems
settling the specification claims about it.

Modelling conventions:
* a Python dict is an association list in insertion order; `dictUpdate`
  mirrors `dict.update` (existing keys replaced in place, new keys
  appended);
* `sys.exit` / raised exceptions are explicit constructors (`EnvLoadResult`,
  `Option`);
* the effects of `Storage.get` and of `Bot.heartbeat_loop` are traces of
  the externally visible actions the code performs, in program order.
-/

namespace EhfBot

/-- YAML-style nested value: string, boolean, or nested mapping. -/
inductive YVal where
  | str : String → YVal
  | bool : Bool → YVal
  | dict : List (String × YVal) → YVal

/-- Python `d[k]` as a total lookup: first entry whose key equals `k`. -/
def alookup {α : Type} : List (String × α) → String → Option α
  | [], _ => none
  | (a, v) :: rest, k => if a = k then some v else alookup rest k

/-- Python `k in d`. -/
def hasKey {α : Type} (d : List (String × α)) (k : String) : Bool :=
  d.any (fun p => p.1 == k)

/-- Python `d[k] = v` on an insertion-ordered dict: replace in place when the
key exists, append otherwise. -/
def dictSet (d : List (String × YVal)) (k : String) (v : YVal) :
    List (String × YVal) :=
  if hasKey d k then d.map (fun p => if p.1 = k then (k, v) else p)
  else d ++ [(k, v)]

/-- Python `d.update(o)`: set every entry of `o` into `d`, in order. -/
def dictUpdate (d o : List (String × YVal)) : List (String × YVal) :=
  o.foldl (fun acc p => dictSet acc p.1 p.2) d

/-! ## Env (`SecretStore`) — bot.py lines 18-27 -/

/-- The key/value pairs loaded by `dotenv_values(".env")`. -/
abbrev EnvData := List (String × String)

/-- `Env.REQUIRED_KEYS` from the source: exactly these four keys. -/
def REQUIRED_KEYS : List String :=
  ["S3_REGION", "S3_BUCKET", "AWS_KEY", "AWS_SECRET"]

/-- The required keys absent from the loaded data:
`set(REQUIRED_KEYS) - set(self.data)` is nonempty iff this list is. -/
def missingKeys (data : EnvData) : List String :=
  REQUIRED_KEYS.filter (fun k => !hasKey data k)

/-- The diagnostic printed by `sys.exit`: it names the whole required-key
tuple, independent of which keys are missing. -/
def exitMessage : String :=
  String.intercalate ", " REQUIRED_KEYS ++ " must be set in .env"

/-- Result of `Env()` construction: either the process terminated via
`sys.exit(msg)` (non-zero status, message on stderr), or a usable mapping. -/
inductive EnvLoadResult where
  | exited : String → EnvLoadResult
  | ok : EnvData → EnvLoadResult
deriving DecidableEq

/-- `Env.__init__` + `Env.warn_about_missing_keys`: exit iff some required
key is absent from the loaded data; otherwise the data is kept unchanged. -/
def envLoad (data : EnvData) : EnvLoadResult :=
  if missingKeys data ≠ [] then EnvLoadResult.exited exitMessage
  else EnvLoadResult.ok data

/-! ## Storage.get — bot.py lines 39-48

The context manager, as an effect trace. The two external sources of
failure are the S3 download (`bucket.download_file`) and the caller's body
run at the `yield` (the config parse). `temporary_file.close()` deletes the
`NamedTemporaryFile` from the filesystem. -/

/-- Filesystem-relevant actions of `Storage.get`, in program order. -/
inductive FsEvent where
  | createTemp
  | downloadAttempt
  | openTemp
  | runBody
  | closeTemp
deriving DecidableEq

/-- How one execution of `Storage.get` finished. -/
inductive GetOutcome where
  | ok
  | bodyRaised
  | downloadRaised
deriving DecidableEq

/-- `Storage.get`, parameterised by whether the download succeeds and
whether the caller's body (the parse step) succeeds. The temp file is
created and the download attempted before any `try`; only the
`try: yield / finally: temporary_file.close()` around the body closes the
file. -/
def storage_get (downloadOk bodyOk : Bool) : List FsEvent × GetOutcome :=
  let pre := [FsEvent.createTemp, FsEvent.downloadAttempt]
  if downloadOk then
    let body := [FsEvent.openTemp, FsEvent.runBody]
    if bodyOk then (pre ++ body ++ [FsEvent.closeTemp], GetOutcome.ok)
    else (pre ++ body ++ [FsEvent.closeTemp], GetOutcome.bodyRaised)
  else (pre, GetOutcome.downloadRaised)

/-- The scoped temp file was removed by the code itself: `close()` ran. -/
def tempFileRemoved (tr : List FsEvent) : Bool :=
  tr.contains FsEvent.closeTemp

/-! ## Config (`ConfigMerger`) — bot.py lines 50-71 -/

/-- `Config.load_env`: builds the override mapping from the four credential
keys; a missing key raises `KeyError` (`none`). -/
def load_env (env : EnvData) : Option (List (String × YVal)) :=
  match alookup env "DISCORD_CLIENT_ID", alookup env "DISCORD_TOKEN",
        alookup env "REDDIT_BOT_CLIENT_ID", alookup env "REDDIT_BOT_SECRET" with
  | some cid, some tok, some rcid, some rsec =>
      some [("discord", YVal.dict
               [("client_id", YVal.str cid), ("token", YVal.str tok)]),
            ("reddit", YVal.dict
               [("client_id", YVal.str rcid), ("secret", YVal.str rsec)])]
  | _, _, _, _ => none

/-- `Config.__init__` applied to an already-parsed remote document:
`self.data = parsed; self.data.update(self.load_env(env))`. -/
def config_init (env : EnvData) (parsed : List (String × YVal)) :
    Option (List (String × YVal)) :=
  (load_env env).map (fun ov => dictUpdate parsed ov)

/-! ## Bot — bot.py lines 73-132 -/

/-- Invocation context: the only field the channel guards read. -/
structure Ctx where
  channelName : String

/-- Python `ctx.channel.name == value` where `value` came from the config:
equality of a `str` with a non-`str` value is `False`, never an error. -/
def strEqYVal (s : String) : YVal → Bool
  | YVal.str t => s == t
  | _ => false

/-- `self.config["channels"][key]`: `KeyError`/`TypeError` is `none`. -/
def channel_lookup (config : List (String × YVal)) (key : String) :
    Option YVal :=
  match alookup config "channels" with
  | some (YVal.dict d) => alookup d key
  | _ => none

/-- Python `str(value)` as used in the warn f-strings. The claims only
exercise string-valued channel names; rendering of nested mappings is
abstracted. -/
def yvalFormat : YVal → String
  | YVal.str s => s
  | YVal.bool b => if b then "True" else "False"
  | YVal.dict _ => "dict"

/-- `Bot.check_meta_channel` (line 109-110): pure comparison of the
invoking channel name with `config["channels"]["meta"]`. -/
def check_meta_channel (config : List (String × YVal)) (ctx : Ctx) :
    Option Bool :=
  (channel_lookup config "meta").map (fun v => strEqYVal ctx.channelName v)

/-- `Bot.check_bot_channel` (line 118-119). -/
def check_bot_channel (config : List (String × YVal)) (ctx : Ctx) :
    Option Bool :=
  (channel_lookup config "bot").map (fun v => strEqYVal ctx.channelName v)

/-- `Bot.warn_meta_channel` (lines 112-116): the returned pair is the list
of messages sent via `ctx.send` and the boolean result. -/
def warn_meta_channel (config : List (String × YVal)) (ctx : Ctx) :
    Option (List String × Bool) :=
  match check_meta_channel config ctx with
  | none => none
  | some b =>
    if b then some ([], true)
    else
      match channel_lookup config "meta" with
      | some v => some (["take it to #" ++ yvalFormat v], false)
      | none => none

/-- `Bot.warn_bot_channel` (lines 121-125). -/
def warn_bot_channel (config : List (String × YVal)) (ctx : Ctx) :
    Option (List String × Bool) :=
  match check_bot_channel config ctx with
  | none => none
  | some b =>
    if b then some ([], true)
    else
      match channel_lookup config "bot" with
      | some v => some (["take it to #" ++ yvalFormat v], false)
      | none => none

/-! ## Bot.__init__ and the heartbeat loop — bot.py lines 92-104, 128-132 -/

/-- The registration/scheduling actions of `Bot.__init__`, in program
order. `Bot.__init__` runs exactly once per bot lifecycle (`Bot.create`
constructs a single instance). -/
inductive InitAction where
  | addCog : String → InitAction
  | createHeartbeatTask
deriving DecidableEq

/-- The body of `Bot.__init__` after `super().__init__`. -/
def bot_init_actions : List InitAction :=
  [InitAction.addCog "PresenceCog", InitAction.addCog "WelcomeCog",
   InitAction.addCog "RolerCog", InitAction.addCog "AfterdarkCog",
   InitAction.addCog "RealtalkCog", InitAction.addCog "ActivityCog",
   InitAction.addCog "LurkersCog", InitAction.addCog "AnimeCog",
   InitAction.addCog "AnnoyingCog", InitAction.addCog "NoveltyCog",
   InitAction.createHeartbeatTask]

/-- Number of heartbeat tasks scheduled by an init-action trace. -/
def countHeartbeatStarts : List InitAction → Nat
  | [] => 0
  | InitAction.createHeartbeatTask :: rest => 1 + countHeartbeatStarts rest
  | _ :: rest => countHeartbeatStarts rest

/-- Observable actions of `Bot.heartbeat_loop`. -/
inductive HbAction where
  | waitReady
  | emitHeartbeat
  | sleep10
deriving DecidableEq

/-- The `while not self.is_closed()` loop body, driven by the sequence of
values `self.is_closed()` returns at each check (`true` = closed). Each
open iteration dispatches `heartbeat` and then sleeps 10 seconds. -/
def heartbeat_iters : List Bool → List HbAction
  | [] => []
  | closed :: rest =>
    if closed then []
    else HbAction.emitHeartbeat :: HbAction.sleep10 :: heartbeat_iters rest

/-- `Bot.heartbeat_loop`: `await self.wait_until_ready()`, then the loop. -/
def heartbeat_loop (obs : List Bool) : List HbAction :=
  HbAction.waitReady :: heartbeat_iters obs

/-- Heartbeat events in a trace. -/
def countEmits : List HbAction → Nat
  | [] => 0
  | a :: rest =>
    (if a = HbAction.emitHeartbeat then 1 else 0) + countEmits rest

theorem heartbeat_iters_open (rest : List Bool) :
    heartbeat_iters (false :: rest) =
      HbAction.emitHeartbeat :: HbAction.sleep10 :: heartbeat_iters rest :=
  rfl

theorem heartbeat_iters_closed (rest : List Bool) :
    heartbeat_iters (true :: rest) = [] := rfl

/-! ## Association-list lemmas -/

theorem hasKey_cons {α : Type} (a : String) (v : α) (rest : List (String × α))
    (k : String) : hasKey ((a, v) :: rest) k = (a == k || hasKey rest k) := by
  simp [hasKey]

theorem alookup_mapReplace (d : List (String × YVal)) (k k2 : String)
    (v : YVal) :
    alookup (d.map (fun p => if p.1 = k then (k, v) else p)) k2 =
      if k = k2 then (if hasKey d k then some v else none)
      else alookup d k2 := by
  induction d with
  | nil => simp [alookup, hasKey]
  | cons hd tl ih =>
    obtain ⟨a, w⟩ := hd
    simp only [List.map_cons]
    by_cases hak : a = k
    · rw [if_pos hak]
      subst hak
      by_cases hk2 : a = k2
      · subst hk2
        simp [alookup, hasKey_cons]
      · simp [alookup, hasKey_cons, hk2, ih]
    · rw [if_neg hak]
      by_cases hk2 : a = k2
      · subst hk2
        have hkk2 : ¬k = a := fun hh => hak hh.symm
        simp [alookup, hasKey_cons, hak, hkk2]
      · simp [alookup, hasKey_cons, hak, hk2, ih]

theorem alookup_appendNew (d : List (String × YVal)) (k k2 : String)
    (v : YVal) (h : hasKey d k = false) :
    alookup (d ++ [(k, v)]) k2 = if k = k2 then some v else alookup d k2 := by
  induction d with
  | nil => simp [alookup]
  | cons hd tl ih =>
    obtain ⟨a, w⟩ := hd
    rw [hasKey_cons] at h
    simp only [Bool.or_eq_false_iff, beq_eq_false_iff_ne, ne_eq] at h
    obtain ⟨hak, htl⟩ := h
    by_cases hk2 : a = k2
    · subst hk2
      have hkk2 : ¬k = a := fun hh => hak hh.symm
      simp [alookup, hkk2]
    · simp [alookup, hk2, ih htl]

theorem alookup_dictSet (d : List (String × YVal)) (k k2 : String) (v : YVal) :
    alookup (dictSet d k v) k2 = if k = k2 then some v else alookup d k2 := by
  unfold dictSet
  cases hb : hasKey d k with
  | true =>
    rw [if_pos rfl, alookup_mapReplace, hb]
    simp
  | false =>
    rw [if_neg (by simp), alookup_appendNew d k k2 v hb]

theorem dictUpdate_pair (d : List (String × YVal)) (a b : String)
    (va vb : YVal) :
    dictUpdate d [(a, va), (b, vb)] = dictSet (dictSet d a va) b vb := rfl

theorem load_env_shape (env : EnvData) (ov : List (String × YVal))
    (h : load_env env = some ov) :
    ∃ cid tok rcid rsec,
      alookup env "DISCORD_CLIENT_ID" = some cid ∧
      alookup env "DISCORD_TOKEN" = some tok ∧
      alookup env "REDDIT_BOT_CLIENT_ID" = some rcid ∧
      alookup env "REDDIT_BOT_SECRET" = some rsec ∧
      ov = [("discord", YVal.dict
               [("client_id", YVal.str cid), ("token", YVal.str tok)]),
            ("reddit", YVal.dict
               [("client_id", YVal.str rcid), ("secret", YVal.str rsec)])] := by
  unfold load_env at h
  cases h1 : alookup env "DISCORD_CLIENT_ID" <;>
    cases h2 : alookup env "DISCORD_TOKEN" <;>
      cases h3 : alookup env "REDDIT_BOT_CLIENT_ID" <;>
        cases h4 : alookup env "REDDIT_BOT_SECRET" <;>
          rw [h1, h2, h3, h4] at h <;>
            first
              | exact Option.noConfusion h
              | · injection h with h
                  exact ⟨_, _, _, _, rfl, rfl, rfl, rfl, h.symm⟩

theorem envLoad_ok_iff (data : EnvData) :
    envLoad data = EnvLoadResult.ok data ↔ missingKeys data = [] := by
  unfold envLoad
  by_cases h : missingKeys data = [] <;> simp [h]

/-! ## Claims C1 and C4 (SecretStore.load) -/

/-- A secret file containing the four keys `Env` checks but none of the
Discord/Reddit credential keys. -/
def envMissingDiscord : EnvData :=
  [("S3_REGION", "us-east-1"), ("S3_BUCKET", "bkt"),
   ("AWS_KEY", "ak"), ("AWS_SECRET", "sec")]

/-- C1 counterexample: the claim says a secret file missing
`DISCORD_CLIENT_ID` makes `SecretStore.load` terminate the process, but
`Env` only checks the four S3/AWS keys: on `envMissingDiscord` it returns
a usable mapping even though `DISCORD_CLIENT_ID` is absent. -/
theorem C1_counterexample :
    envLoad envMissingDiscord = EnvLoadResult.ok envMissingDiscord ∧
    hasKey envMissingDiscord "DISCORD_CLIENT_ID" = false := by decide

/-- C1 (amended): whenever any of the four keys of `Env.REQUIRED_KEYS`
(`S3_REGION`, `S3_BUCKET`, `AWS_KEY`, `AWS_SECRET`) is missing from the
loaded secret file, construction exits the process with a diagnostic
naming the required-key tuple and never returns a usable mapping. -/
theorem C1_missing_required_key_exits (data : EnvData)
    (h : ∃ k ∈ REQUIRED_KEYS, hasKey data k = false) :
    envLoad data = EnvLoadResult.exited exitMessage := by
  obtain ⟨k, hk, hmiss⟩ := h
  have hmem : k ∈ missingKeys data := by
    simp [missingKeys, List.mem_filter, hk, hmiss]
  have hne : missingKeys data ≠ [] := List.ne_nil_of_mem hmem
  simp [envLoad, hne]

/-- C1 witness: the empty secret file is rejected with the diagnostic. -/
theorem C1_missing_required_key_exits_witness :
    envLoad [] = EnvLoadResult.exited exitMessage :=
  C1_missing_required_key_exits []
    ⟨"S3_REGION", by decide, by decide⟩

/-- A secret file where every checked key is present but `AWS_KEY` has the
empty string as value. -/
def envEmptyAwsKey : EnvData :=
  [("S3_REGION", "us-east-1"), ("S3_BUCKET", "bkt"),
   ("AWS_KEY", ""), ("AWS_SECRET", "sec")]

/-- C4 counterexample: the claim says a present-but-empty required key
makes construction fail, but `Env` only tests key membership: with
`AWS_KEY` mapped to the empty string, construction succeeds. -/
theorem C4_counterexample :
    envLoad envEmptyAwsKey = EnvLoadResult.ok envEmptyAwsKey ∧
    alookup envEmptyAwsKey "AWS_KEY" = some "" := by decide

/-- C4 (amended): `Env` construction succeeds exactly when every required
key is present in the loaded data, regardless of the values (empty values
pass); if any required key is absent the process terminates with the
descriptive message, so no partial state is usable. -/
theorem C4_presence_only_check (data : EnvData) :
    envLoad data = EnvLoadResult.ok data ↔
      ∀ k ∈ REQUIRED_KEYS, hasKey data k = true := by
  rw [envLoad_ok_iff]
  unfold missingKeys
  rw [List.filter_eq_nil_iff]
  simp

/-! ## Claim C2 (Storage.get temporary file) -/

/-- C2 counterexample: when the S3 download itself raises, `Storage.get`
runs no cleanup code — the `try/finally` that closes (and so deletes) the
temporary file is only entered after the download succeeds — so the scoped
temporary file is not removed by the function on that path. -/
theorem C2_counterexample :
    tempFileRemoved (storage_get false true).1 = false ∧
    (storage_get false true).2 = GetOutcome.downloadRaised := by decide

/-- C2 (amended): the scoped temporary file is removed on every path where
the download succeeds — both when the caller's parse step returns and when
it throws — but when the remote download itself throws, no explicit
removal is performed by `Storage.get` (deletion is left to interpreter
finalization of the `NamedTemporaryFile` object). -/
theorem C2_cleanup_paths (bodyOk : Bool) :
    tempFileRemoved (storage_get true bodyOk).1 = true ∧
    tempFileRemoved (storage_get false bodyOk).1 = false := by
  cases bodyOk <;> decide

/-! ## Claims C3, C8, C9 (ConfigMerger.merge) -/

/-- The secret values of the worked merge example. -/
def envC3 : EnvData :=
  [("DISCORD_CLIENT_ID", "abc"), ("DISCORD_TOKEN", "xyz"),
   ("REDDIT_BOT_CLIENT_ID", "r1"), ("REDDIT_BOT_SECRET", "s1")]

/-- The parsed remote document of the worked merge example. -/
def parsedC3 : List (String × YVal) :=
  [("commands", YVal.dict [("prefix", YVal.str "!")]),
   ("discord", YVal.dict [("unused", YVal.bool true)])]

/-- The override mapping `Config.load_env` builds from `envC3`. -/
def ovC3 : List (String × YVal) :=
  [("discord", YVal.dict
      [("client_id", YVal.str "abc"), ("token", YVal.str "xyz")]),
   ("reddit", YVal.dict
      [("client_id", YVal.str "r1"), ("secret", YVal.str "s1")])]

/-- The expected merged configuration of the worked merge example;
`discord.unused` is dropped by the shallow top-level replacement. -/
def mergedC3 : List (String × YVal) :=
  [("commands", YVal.dict [("prefix", YVal.str "!")]),
   ("discord", YVal.dict
      [("client_id", YVal.str "abc"), ("token", YVal.str "xyz")]),
   ("reddit", YVal.dict
      [("client_id", YVal.str "r1"), ("secret", YVal.str "s1")])]

/-- C3: `Config` performs a shallow top-level merge — every top-level key
of the override mapping replaces the corresponding key of the parsed
document entirely, keys absent from the override are untouched — and on
the spec's worked example it produces exactly the expected document, with
`discord.unused` dropped. -/
theorem C3_shallow_merge (env : EnvData) (ov parsed : List (String × YVal))
    (hov : load_env env = some ov) :
    (∀ k, hasKey ov k = true →
        alookup (dictUpdate parsed ov) k = alookup ov k) ∧
    (∀ k, hasKey ov k = false →
        alookup (dictUpdate parsed ov) k = alookup parsed k) ∧
    config_init envC3 parsedC3 = some mergedC3 := by
  obtain ⟨cid, tok, rcid, rsec, _, _, _, _, hshape⟩ := load_env_shape env ov hov
  subst hshape
  refine ⟨?_, ?_, rfl⟩
  · intro k hk
    simp only [hasKey, List.any_cons, List.any_nil, Bool.or_false,
      Bool.or_eq_true, beq_iff_eq] at hk
    rw [dictUpdate_pair, alookup_dictSet, alookup_dictSet]
    rcases hk with hk | hk <;> subst hk <;> simp [alookup]
  · intro k hk
    simp only [hasKey, List.any_cons, List.any_nil, Bool.or_false,
      Bool.or_eq_false_iff, beq_eq_false_iff_ne, ne_eq] at hk
    obtain ⟨hd, hr⟩ := hk
    rw [dictUpdate_pair, alookup_dictSet, alookup_dictSet,
      if_neg hr, if_neg hd]

/-- C3 witness: the general replacement property applied at key
`discord`, and the worked example evaluated. -/
theorem C3_shallow_merge_witness :
    alookup (dictUpdate parsedC3 ovC3) "discord" = alookup ovC3 "discord" ∧
    config_init envC3 parsedC3 = some mergedC3 :=
  ⟨(C3_shallow_merge envC3 ovC3 parsedC3 rfl).1 "discord" (by decide),
   (C3_shallow_merge envC3 ovC3 parsedC3 rfl).2.2⟩

/-- C8: the merge is idempotent on the override subtrees — re-merging the
same secrets into an already-merged configuration leaves the `discord`
and `reddit` subtrees identical to those of the first merge. -/
theorem C8_merge_idempotent (env : EnvData)
    (parsed merged remerged : List (String × YVal))
    (h1 : config_init env parsed = some merged)
    (h2 : config_init env merged = some remerged) :
    alookup remerged "discord" = alookup merged "discord" ∧
    alookup remerged "reddit" = alookup merged "reddit" := by
  unfold config_init at h1 h2
  cases hov : load_env env with
  | none => rw [hov] at h1; exact Option.noConfusion h1
  | some ov =>
    rw [hov] at h1 h2
    injection h1 with h1
    injection h2 with h2
    obtain ⟨cid, tok, rcid, rsec, _, _, _, _, hshape⟩ :=
      load_env_shape env ov hov
    subst hshape
    subst h1
    subst h2
    constructor <;> simp [dictUpdate_pair, alookup_dictSet]

/-- C8 witness: re-merging the example secrets into the merged example
configuration changes neither credential subtree. -/
theorem C8_merge_idempotent_witness :
    alookup mergedC3 "discord" = alookup mergedC3 "discord" ∧
    alookup mergedC3 "reddit" = alookup mergedC3 "reddit" :=
  C8_merge_idempotent envC3 parsedC3 mergedC3 mergedC3 rfl rfl

/-- C9: the override mapping has exactly the top-level keys `discord` and
`reddit`; both are always present in the merged configuration, and every
other top-level key has the same value in the merged configuration as in
the parsed document. -/
theorem C9_merge_frame (env : EnvData) (ov parsed : List (String × YVal))
    (hov : load_env env = some ov) :
    ov.map Prod.fst = ["discord", "reddit"] ∧
    (alookup (dictUpdate parsed ov) "discord").isSome = true ∧
    (alookup (dictUpdate parsed ov) "reddit").isSome = true ∧
    ∀ k, k ≠ "discord" → k ≠ "reddit" →
      alookup (dictUpdate parsed ov) k = alookup parsed k := by
  obtain ⟨cid, tok, rcid, rsec, _, _, _, _, hshape⟩ :=
    load_env_shape env ov hov
  subst hshape
  refine ⟨rfl, ?_, ?_, ?_⟩
  · simp [dictUpdate_pair, alookup_dictSet]
  · simp [dictUpdate_pair, alookup_dictSet]
  · intro k hkd hkr
    rw [dictUpdate_pair, alookup_dictSet, alookup_dictSet,
      if_neg (fun hh => hkr hh.symm), if_neg (fun hh => hkd hh.symm)]

/-- C9 witness: the frame property on the worked example, with the
untouched key instantiated at `commands`. -/
theorem C9_merge_frame_witness :
    ovC3.map Prod.fst = ["discord", "reddit"] ∧
    (alookup (dictUpdate parsedC3 ovC3) "discord").isSome = true ∧
    (alookup (dictUpdate parsedC3 ovC3) "reddit").isSome = true ∧
    alookup (dictUpdate parsedC3 ovC3) "commands" =
      alookup parsedC3 "commands" :=
  ⟨(C9_merge_frame envC3 ovC3 parsedC3 rfl).1,
   (C9_merge_frame envC3 ovC3 parsedC3 rfl).2.1,
   (C9_merge_frame envC3 ovC3 parsedC3 rfl).2.2.1,
   (C9_merge_frame envC3 ovC3 parsedC3 rfl).2.2.2 "commands"
     (by decide) (by decide)⟩

/-! ## Claims C6 and C7 (channel guards) -/

/-- C6: `check_meta_channel` returns `true` exactly when the invoking
channel's name equals the configured `channels.meta` string, and
`check_bot_channel` likewise for `channels.bot`; both are pure functions
of the configuration and the context. -/
theorem C6_channel_checks (config : List (String × YVal)) (ctx : Ctx)
    (m b : String)
    (hm : channel_lookup config "meta" = some (YVal.str m))
    (hb : channel_lookup config "bot" = some (YVal.str b)) :
    (check_meta_channel config ctx = some true ↔ ctx.channelName = m) ∧
    (check_bot_channel config ctx = some true ↔ ctx.channelName = b) := by
  constructor
  · unfold check_meta_channel
    rw [hm]
    simp [strEqYVal]
  · unfold check_bot_channel
    rw [hb]
    simp [strEqYVal]

/-- A configuration carrying the two configured channel names. -/
def cfgChannels : List (String × YVal) :=
  [("channels", YVal.dict
      [("meta", YVal.str "meta-chan"), ("bot", YVal.str "bot-chan")])]

/-- A context invoking from the configured meta channel. -/
def ctxMeta : Ctx := ⟨"meta-chan"⟩

/-- A context invoking from an unrelated channel. -/
def ctxGeneral : Ctx := ⟨"general"⟩

/-- C6 witness: the checks evaluated on a concrete configuration. -/
theorem C6_channel_checks_witness :
    (check_meta_channel cfgChannels ctxMeta = some true ↔
      ctxMeta.channelName = "meta-chan") ∧
    (check_bot_channel cfgChannels ctxMeta = some true ↔
      ctxMeta.channelName = "bot-chan") :=
  C6_channel_checks cfgChannels ctxMeta "meta-chan" "bot-chan" rfl rfl

/-- C7: when the channel check fails, `warn_meta_channel` sends exactly
one redirect message naming the configured meta channel and returns
`false`; when it passes, it sends nothing and returns `true`;
`warn_bot_channel` behaves analogously for the bot channel. -/
theorem C7_channel_warns (config : List (String × YVal)) (ctx : Ctx)
    (m b : String)
    (hm : channel_lookup config "meta" = some (YVal.str m))
    (hb : channel_lookup config "bot" = some (YVal.str b)) :
    warn_meta_channel config ctx =
      some (if ctx.channelName = m then ([], true)
            else (["take it to #" ++ m], false)) ∧
    warn_bot_channel config ctx =
      some (if ctx.channelName = b then ([], true)
            else (["take it to #" ++ b], false)) := by
  constructor
  · unfold warn_meta_channel check_meta_channel
    rw [hm]
    by_cases hc : ctx.channelName = m
    · simp [strEqYVal, hc]
    · simp [strEqYVal, yvalFormat, hc, hm]
  · unfold warn_bot_channel check_bot_channel
    rw [hb]
    by_cases hc : ctx.channelName = b
    · simp [strEqYVal, hc]
    · simp [strEqYVal, yvalFormat, hc, hb]

/-- C7 witness: the guards evaluated from a non-matching channel. -/
theorem C7_channel_warns_witness :
    warn_meta_channel cfgChannels ctxGeneral =
      some (if ctxGeneral.channelName = "meta-chan" then ([], true)
            else (["take it to #" ++ "meta-chan"], false)) ∧
    warn_bot_channel cfgChannels ctxGeneral =
      some (if ctxGeneral.channelName = "bot-chan" then ([], true)
            else (["take it to #" ++ "bot-chan"], false)) :=
  C7_channel_warns cfgChannels ctxGeneral "meta-chan" "bot-chan" rfl rfl

/-! ## Claims C5 and C10 (heartbeat loop) -/

/-- C5: the heartbeat task is scheduled exactly once per bot lifecycle;
the loop first suspends until the gateway is ready, then, while the
connection is reported open, emits one `heartbeat` event followed by a
10-second suspension per iteration — so the number of events equals the
number of open observations before the first closed one — and once the
connection is reported closed, no further heartbeat event is ever
emitted. -/
theorem C5_heartbeat_lifecycle (obs pre post : List Bool)
    (hpre : ∀ x ∈ pre, x = false) :
    countHeartbeatStarts bot_init_actions = 1 ∧
    (heartbeat_loop obs).head? = some HbAction.waitReady ∧
    countEmits (heartbeat_iters obs) =
      (obs.takeWhile (fun x => !x)).length ∧
    heartbeat_iters (pre ++ true :: post) = heartbeat_iters pre := by
  refine ⟨by decide, rfl, ?_, ?_⟩
  · induction obs with
    | nil => rfl
    | cons c rest ih =>
      cases c
      · simp [heartbeat_iters_open, countEmits, ih]
        omega
      · simp [heartbeat_iters_closed, countEmits]
  · induction pre with
    | nil => rfl
    | cons c cpre ih =>
      have hc : c = false := hpre c (by simp)
      subst hc
      have hrest : ∀ x ∈ cpre, x = false := fun x hx => hpre x (by simp [hx])
      rw [List.cons_append, heartbeat_iters_open, heartbeat_iters_open,
        ih hrest]

/-- C5 witness: two open observations then a closed one yield exactly two
heartbeat events and nothing after the close. -/
theorem C5_heartbeat_lifecycle_witness :
    countHeartbeatStarts bot_init_actions = 1 ∧
    (heartbeat_loop [false, true]).head? = some HbAction.waitReady ∧
    countEmits (heartbeat_iters [false, true]) =
      (([false, true] : List Bool).takeWhile (fun x => !x)).length ∧
    heartbeat_iters ([false] ++ true :: [false, false]) =
      heartbeat_iters [false] :=
  C5_heartbeat_lifecycle [false, true] [false] [false, false] (by decide)

/-- C10: within each open iteration the heartbeat emission precedes the
10-second suspension, so when the connection is open at readiness the
first heartbeat event follows the readiness wait immediately, before any
sleep. -/
theorem C10_emit_before_sleep (rest : List Bool) :
    heartbeat_loop (false :: rest) =
      HbAction.waitReady :: HbAction.emitHeartbeat :: HbAction.sleep10 ::
        heartbeat_iters rest := by
  simp [heartbeat_loop, heartbeat_iters]

end EhfBot
